import Mathlib

/-!
Verification of the `year-in-pixels` wallpaper rendering core
(`backend/app/wallpaper.py`, `backend/app/theme.py`, `backend/app/utils.py`,
`backend/app/constants.py`).

Modelling conventions:
* Python `float` arithmetic on the small decimal constants of this code is
  modelled by exact rational arithmetic (`ℚ`).  All constants appearing in the
  source (0.24, 0.82, 0.18, ...) are exact decimals, and for the bounded
  integer inputs occurring here the results the code observes after
  `int(...)` / `round(...)` agree with the exact-rational results (the
  accumulated floating-point error is far below the distance to the nearest
  rounding boundary at every call site).
* Python `round` (round-half-to-even) is modelled by `pyround : ℚ → ℤ`;
  Python `int(...)` of a nonnegative value is truncation, i.e. the floor.
* Python `//` and `%` agree with Lean's `Int` `/` (`ediv`) and `%` (`emod`)
  whenever the divisor is positive, which holds at every division site here.
* `bytes` / `bytearray` values are modelled as `List ℕ` (or `Array ℕ` for
  the mutable pixel buffer) of byte values.
* Python runtime behaviour that the code relies on (`str()` of an `int`,
  `int()` parsing of a decimal string, `str.strip()`, dict lookup) is
  modelled for ASCII data, which is the data exercised by this program.
-/

-- ## Python rounding

/-- Round-half-to-even on rationals: the model of Python's builtin `round`
applied to an exact rational value. -/
def pyround (q : ℚ) : ℤ :=
  if 2 * q < 2 * (⌊q⌋ : ℚ) + 1 then ⌊q⌋
  else if 2 * (⌊q⌋ : ℚ) + 1 < 2 * q then ⌊q⌋ + 1
  else if ⌊q⌋ % 2 = 0 then ⌊q⌋ else ⌊q⌋ + 1

/-- Integer-only round-half-to-even of the fraction `n / d` (for `d > 0`):
an executable companion of `pyround` used to evaluate it on concrete
fractions. -/
def pyfrac (n d : ℤ) : ℤ :=
  let f := n / d
  let r := n - f * d
  if 2 * r < d then f else if d < 2 * r then f + 1 else if f % 2 = 0 then f else f + 1

-- ## Color model (`wallpaper.py` lines 25-73, 106-108; `utils.py`)

/-- `clamp_int` from `wallpaper.py`. -/
def clamp_int (value minimum maximum : ℤ) : ℤ :=
  if minimum > maximum then minimum
  else max minimum (min maximum value)

/-- Byte RGB triples. -/
abbrev RGB := ℕ × ℕ × ℕ

/-- `blend_channel` from `wallpaper.py`:
`max(0, min(255, int(round(a * (1 - alpha) + b * alpha))))`. -/
def blend_channel (a b : ℕ) (alpha : ℚ) : ℕ :=
  (max 0 (min 255 (pyround ((a : ℚ) * (1 - alpha) + (b : ℚ) * alpha)))).toNat

/-- `blend_rgb` from `wallpaper.py`. -/
def blend_rgb (a b : RGB) (alpha : ℚ) : RGB :=
  (blend_channel a.1 b.1 alpha, blend_channel a.2.1 b.2.1 alpha,
    blend_channel a.2.2 b.2.2 alpha)

/-- The luminance expression `0.2126*R + 0.7152*G + 0.0722*B` used by
`derive_empty_color`, `derive_background_gradient` and `desaturate_rgb`. -/
def luminance_q (c : RGB) : ℚ :=
  (2126 / 10000) * (c.1 : ℚ) + (7152 / 10000) * (c.2.1 : ℚ) + (722 / 10000) * (c.2.2 : ℚ)

/-- `derive_empty_color` from `wallpaper.py`. -/
def derive_empty_color (bg_rgb : RGB) : RGB :=
  if luminance_q bg_rgb < 128 then blend_rgb bg_rgb (255, 255, 255) (18 / 100)
  else blend_rgb bg_rgb (0, 0, 0) (14 / 100)

/-- `derive_background_gradient` from `wallpaper.py`. -/
def derive_background_gradient (bg_rgb : RGB) : RGB × RGB :=
  if luminance_q bg_rgb < 128 then
    (blend_rgb bg_rgb (255, 255, 255) (9 / 100), blend_rgb bg_rgb (0, 0, 0) (16 / 100))
  else
    (blend_rgb bg_rgb (255, 255, 255) (5 / 100), blend_rgb bg_rgb (0, 0, 0) (10 / 100))

/-- `desaturate_rgb` from `wallpaper.py`: `int(round(luminance))` replicated
over the three channels. -/
def desaturate_rgb (color : RGB) : RGB :=
  let lum := (pyround (luminance_q color)).toNat
  (lum, lum, lum)

-- ## Python values and string runtime helpers

/-- The JSON-like Python values stored in theme / mood dictionaries. -/
inductive PyVal where
  | vint (n : ℤ)
  | vstr (s : String)
  | vbool (b : Bool)
  | vnone
  | vdict (entries : List (String × PyVal))

/-- Python whitespace test (`str.strip` / `int()` stripping), ASCII subset. -/
def py_ws (c : Char) : Bool :=
  c == ' ' || c == '\t' || c == '\n' || c == '\r' || c == '\x0b' || c == '\x0c'

/-- Python `str.strip()` (ASCII whitespace). -/
def py_strip (s : String) : String :=
  String.mk (((s.data.dropWhile py_ws).reverse.dropWhile py_ws).reverse)

/-- The decimal digit character of `d` (`d < 10`). -/
def digit_char (d : ℕ) : Char := Char.ofNat (48 + d)

/-- The value of a decimal digit character. -/
def digit_val (c : Char) : ℕ := c.toNat - 48

/-- Decimal digit characters of `n`, most significant first, via fuel
recursion (the fuel `n + 1` always suffices). -/
def nat_str_aux : ℕ → ℕ → List Char
  | 0, _ => []
  | fuel + 1, n =>
    if n < 10 then [digit_char n]
    else nat_str_aux fuel (n / 10) ++ [digit_char (n % 10)]

/-- Decimal representation of a natural number as characters. -/
def nat_chars (n : ℕ) : List Char := nat_str_aux (n + 1) n

/-- Decode a decimal digit string back to its value (used to prove that
`nat_chars` is injective). -/
def decode_digits (cs : List Char) : ℕ := cs.foldl (fun acc c => acc * 10 + digit_val c) 0

/-- Python `str()` of a nonnegative `int`. -/
def nat_str (n : ℕ) : String := String.mk (nat_chars n)

/-- Python `str()` of an `int`. -/
def int_str (l : ℤ) : String :=
  if l < 0 then String.mk ('-' :: nat_chars (-l).toNat) else nat_str l.toNat

/-- Python `str()` of a value.  The representation of a dict is modelled
opaquely: it begins with a brace and therefore is never equal to a decimal
numeral, which is the only fact this development uses about it. -/
def py_str : PyVal → String
  | .vint n => int_str n
  | .vstr s => s
  | .vbool b => if b then "True" else "False"
  | .vnone => "None"
  | .vdict _ => "\x7b...\x7d"

/-- Main loop of Python `int()` decimal parsing (ASCII): digits with single
underscores allowed between digits. -/
def py_digits_loop : ℕ → List Char → Option ℕ
  | acc, [] => some acc
  | acc, [c] => if c.isDigit then some (acc * 10 + digit_val c) else none
  | acc, c :: c2 :: cs =>
    if c.isDigit then py_digits_loop (acc * 10 + digit_val c) (c2 :: cs)
    else if c = '_' ∧ c2.isDigit then py_digits_loop (acc * 10 + digit_val c2) cs
    else none

/-- Python `int()` digit-group parsing: first character must be a digit. -/
def py_nat_of_chars : List Char → Option ℕ
  | [] => none
  | c :: cs => if c.isDigit then py_digits_loop (digit_val c) cs else none

/-- Python `int(str)` (ASCII decimal literals: optional surrounding
whitespace, optional sign, digits with single underscores). -/
def py_parse_int (s : String) : Option ℤ :=
  match (py_strip s).data with
  | '+' :: rest => (py_nat_of_chars rest).map (fun n => (n : ℤ))
  | '-' :: rest => (py_nat_of_chars rest).map (fun n => -(n : ℤ))
  | cs => (py_nat_of_chars cs).map (fun n => (n : ℤ))

/-- ASCII lower-casing of one character (Python `str.lower()` restricted to
ASCII, which covers the hex letters this code lower-cases). -/
def py_lower_char (c : Char) : Char :=
  if 'A' ≤ c ∧ c ≤ 'Z' then Char.ofNat (c.toNat + 32) else c

/-- The character set `"0123456789abcdefABCDEF"` of `normalize_hex_color`. -/
def hex_digit_chars : List Char := "0123456789abcdefABCDEF".data

/-- `normalize_hex_color` from `utils.py`. -/
def normalize_hex_color (value : PyVal) (fallback : Option String) : Option String :=
  match value with
  | .vstr s =>
    let trimmed := py_strip s
    let candidate : Option (List Char) :=
      if trimmed.data.length = 7 ∧ trimmed.data.head? = some '#' then some (trimmed.data.drop 1)
      else if trimmed.data.length = 6 then some trimmed.data
      else none
    match candidate with
    | some cs =>
      if cs.all (fun c => hex_digit_chars.contains c) then
        some (String.mk ('#' :: cs.map py_lower_char))
      else fallback
    | none => fallback
  | _ => fallback

/-- Value of one hex digit (inputs are already validated hex characters). -/
def hex_digit_val (c : Char) : ℕ :=
  if '0' ≤ c ∧ c ≤ '9' then c.toNat - 48
  else if 'a' ≤ c ∧ c ≤ 'f' then c.toNat - 87
  else if 'A' ≤ c ∧ c ≤ 'F' then c.toNat - 55
  else 0

/-- `hex_to_rgb` from `wallpaper.py`.  `normalize_hex_color` always returns
a 7-character `#rrggbb` string, so the final catch-all is unreachable. -/
def hex_to_rgb (hex_color : PyVal) (fallback : RGB) : RGB :=
  match normalize_hex_color hex_color none with
  | none => fallback
  | some normalized =>
    match normalized.data with
    | _ :: a :: b :: c :: d :: e :: f :: [] =>
      (16 * hex_digit_val a + hex_digit_val b,
        16 * hex_digit_val c + hex_digit_val d,
        16 * hex_digit_val e + hex_digit_val f)
    | _ => fallback

/-- Python `value == some_string` on an arbitrary value: true only for an
equal string. -/
def py_eq_str (v : PyVal) (s : String) : Bool :=
  match v with
  | .vstr t => t == s
  | _ => false

/-- Python `dict.get(key)`: `None` when absent. -/
def py_dict_get (entries : List (String × PyVal)) (key : String) : PyVal :=
  (List.lookup key entries).getD PyVal.vnone

/-- Python `dict.get(key, default)`. -/
def py_dict_get_d (entries : List (String × PyVal)) (key : String) (default : PyVal) : PyVal :=
  (List.lookup key entries).getD default

-- ## Theme normalization (`theme.py`)

/-- `DEFAULT_THEME["bg_color"]` from `constants.py`. -/
def DEFAULT_BG_COLOR : String := "#0d1117"

/-- `DEFAULT_THEME["mood_colors"]` from `constants.py`. -/
def DEFAULT_MOOD_COLORS : List (String × String) :=
  [("1", "#ef4444"), ("2", "#f97316"), ("3", "#eab308"), ("4", "#22c55e"), ("5", "#3b82f6")]

/-- `DEFAULT_THEME["columns"]` from `constants.py`. -/
def DEFAULT_COLUMNS : ℤ := 14

/-- `normalize_theme_columns` from `theme.py`. -/
def normalize_theme_columns (value : PyVal) (fallback : ℤ) : ℤ :=
  let candidate : Option ℤ :=
    match value with
    | .vbool _ => none
    | .vint n => some n
    | .vstr s => if (py_strip s).data = [] then none else py_parse_int s
    | _ => none
  match candidate with
  | some c => if 7 ≤ c ∧ c ≤ 31 then c else fallback
  | none => fallback

/-- `normalize_theme_avoid_lock_screen_ui` from `theme.py`. -/
def normalize_theme_avoid_lock_screen_ui (value : PyVal) (fallback : Bool) : Bool :=
  match value with
  | .vbool b => b
  | .vint n => if n = 0 then false else if n = 1 then true else fallback
  | .vstr s =>
    let normalized := String.mk ((py_strip s).data.map py_lower_char)
    if normalized = "1" ∨ normalized = "true" ∨ normalized = "yes" ∨ normalized = "on" then true
    else if normalized = "0" ∨ normalized = "false" ∨ normalized = "no" ∨ normalized = "off" then
      false
    else fallback
  | _ => fallback

/-- The `columns` handling of `apply_theme_patch` (`theme.py` lines 90, 98,
143-145): `current_columns` is the normalized current value with the default
(14) as fallback; a present `columns` (or camel-case `gridColumns`) payload
entry is normalized with `current_columns` as fallback. -/
def apply_theme_patch_columns (current_columns_val : PyVal)
    (payload_columns payload_grid_columns : Option PyVal) : ℤ :=
  let current_columns := normalize_theme_columns current_columns_val DEFAULT_COLUMNS
  match payload_columns with
  | some v => normalize_theme_columns v current_columns
  | none =>
    match payload_grid_columns with
    | some v => normalize_theme_columns v current_columns
    | none => current_columns

-- ## Canvas constants and safe boxes (`constants.py`, `wallpaper.py` 76-103)

def WALLPAPER_WIDTH : ℕ := 1290
def WALLPAPER_HEIGHT : ℕ := 2796
def SIDE_INSET : ℕ := 72
def TOP_INSET_CLOCK : ℕ := 320
def BOTTOM_INSET : ℕ := 220

/-- A `(left, top, right, bottom)` rectangle. -/
structure Box where
  left : ℤ
  top : ℤ
  right : ℤ
  bottom : ℤ

/-- `point_in_box` from `wallpaper.py`. -/
def point_in_box (x y : ℤ) (box : Box) : Bool :=
  decide (box.left ≤ x ∧ x < box.right ∧ box.top ≤ y ∧ y < box.bottom)

/-- `clock_safe_box` from `wallpaper.py`; `int(1290*0.17) = 219`,
`int(2796*0.05) = 139`, `int(1290*0.83) = 1070` (float truncation agrees
with the exact values, which are not near integers). -/
def clock_safe_box : Box :=
  ⟨((WALLPAPER_WIDTH * 17 / 100 : ℕ) : ℤ), ((WALLPAPER_HEIGHT * 5 / 100 : ℕ) : ℤ),
    ((WALLPAPER_WIDTH * 83 / 100 : ℕ) : ℤ), ((TOP_INSET_CLOCK : ℤ) + 220)⟩

/-- `widget_soft_safe_box` from `wallpaper.py`. -/
def widget_soft_safe_box : Box :=
  ⟨(SIDE_INSET : ℤ), (TOP_INSET_CLOCK : ℤ) + 170,
    (WALLPAPER_WIDTH : ℤ) - SIDE_INSET, (TOP_INSET_CLOCK : ℤ) + 620⟩

/-- `resolve_protected_top` from `wallpaper.py`. -/
def resolve_protected_top (avoid_lock_screen_ui : Bool) : ℤ :=
  if avoid_lock_screen_ui then widget_soft_safe_box.bottom + 28 else (TOP_INSET_CLOCK : ℤ)

/-- `apply_dot_readability_treatment` from `wallpaper.py`. -/
def apply_dot_readability_treatment (color bg_rgb : RGB) (kind : String)
    (center_x center_y : ℤ) : RGB :=
  if kind = "mood" ∧ point_in_box center_x center_y clock_safe_box then
    blend_rgb (blend_rgb color (desaturate_rgb color) (82 / 100)) bg_rgb (52 / 100)
  else if (kind = "empty" ∨ kind = "future") ∧
      point_in_box center_x center_y widget_soft_safe_box then
    blend_rgb color bg_rgb (if kind = "empty" then 34 / 100 else 50 / 100)
  else color

-- ## Rasterizer (`wallpaper.py` lines 129-206)

/-- The buffer index written by `set_pixel`: `(y * width + x) * 4`. -/
def set_pixel_index (width : ℕ) (x y : ℤ) : ℤ := (y * (width : ℤ) + x) * 4

/-- `set_pixel` from `wallpaper.py`.  All rendering calls are in bounds
(claim C10), where `Array.setD` agrees with Python bytearray assignment. -/
def set_pixel (buffer : Array ℕ) (width : ℕ) (x y : ℤ) (color : RGB) : Array ℕ :=
  let idx := (set_pixel_index width x y).toNat
  ((((buffer.setD idx color.1).setD (idx + 1) color.2.1).setD
    (idx + 2) color.2.2).setD (idx + 3) 255)

/-- The corner test of `point_in_rounded_rect`: `px*px + py*py <= r*r`.
All quantities are integers-and-halves, exactly representable in floats, so
the float comparison agrees with the rational one. -/
def in_corner (px py r : ℚ) : Bool := decide (px * px + py * py ≤ r * r)

/-- `point_in_rounded_rect` from `wallpaper.py`. -/
def point_in_rounded_rect (local_x local_y w h radius : ℤ) : Bool :=
  if radius ≤ 0 then true
  else if radius ≤ local_x ∧ local_x < w - radius then true
  else if radius ≤ local_y ∧ local_y < h - radius then true
  else
    let r : ℚ := (radius : ℚ) - 1 / 2
    if local_x < radius ∧ local_y < radius then
      in_corner ((local_x : ℚ) - ((radius : ℚ) - 1)) ((local_y : ℚ) - ((radius : ℚ) - 1)) r
    else if w - radius ≤ local_x ∧ local_y < radius then
      in_corner ((local_x : ℚ) - ((w : ℚ) - (radius : ℚ))) ((local_y : ℚ) - ((radius : ℚ) - 1)) r
    else if local_x < radius ∧ h - radius ≤ local_y then
      in_corner ((local_x : ℚ) - ((radius : ℚ) - 1)) ((local_y : ℚ) - ((h : ℚ) - (radius : ℚ))) r
    else
      in_corner ((local_x : ℚ) - ((w : ℚ) - (radius : ℚ))) ((local_y : ℚ) - ((h : ℚ) - (radius : ℚ))) r

/-- The integers `a, a+1, ..., b-1` (empty when `b ≤ a`): the model of
Python `range` over clipped loop bounds. -/
def int_range (a b : ℤ) : List ℤ := (List.range (b - a).toNat).map (fun i : ℕ => a + (i : ℤ))

/-- The `(px, py)` pixel coordinates visited by the two nested loops of
`fill_cell`: `py` from `max(0, y)` to `min(height, y + cell_h)`, `px` from
`max(0, x)` to `min(width, x + cell_w)`, in row-major order. -/
def fill_cell_coords (width height x y cell_w cell_h : ℤ) : List (ℤ × ℤ) :=
  (int_range (max 0 y) (min height (y + cell_h))).flatMap (fun py =>
    (int_range (max 0 x) (min width (x + cell_w))).map (fun px => (px, py)))

/-- `fill_cell` from `wallpaper.py`. -/
def fill_cell (buffer : Array ℕ) (width height : ℕ) (x y cell_w cell_h : ℤ)
    (color : RGB) (radius : ℤ) : Array ℕ :=
  (fill_cell_coords (width : ℤ) (height : ℤ) x y cell_w cell_h).foldl
    (fun buf p =>
      if point_in_rounded_rect (p.1 - x) (p.2 - y) cell_w cell_h radius then
        set_pixel buf width p.1 p.2 color
      else buf)
    buffer

/-- `fill_background_gradient` from `wallpaper.py`. -/
def fill_background_gradient (buffer : Array ℕ) (width height : ℕ) (bg_rgb : RGB) : Array ℕ :=
  let g := derive_background_gradient bg_rgb
  let row_stride := width * 4
  let denominator : ℕ := max 1 (height - 1)
  (List.range height).foldl
    (fun buf (y : ℕ) =>
      let row_rgb := blend_rgb g.1 g.2 ((y : ℚ) / (denominator : ℚ))
      (List.range width).foldl
        (fun b (x : ℕ) =>
          let idx : ℕ := y * row_stride + x * 4
          (((b.setD idx row_rgb.1).setD (idx + 1) row_rgb.2.1).setD
            (idx + 2) row_rgb.2.2).setD (idx + 3) 255)
        buf)
    buffer

-- ## Calendar (`wallpaper.py` lines 236-241, 293-297, 354-357, 384-385)

/-- Gregorian leap year (the criterion behind `datetime.date`). -/
def is_leap_year (y : ℕ) : Bool := decide (y % 4 = 0 ∧ (y % 100 ≠ 0 ∨ y % 400 = 0))

/-- `days_in_year` from `wallpaper.py`: modelled from the `datetime`
semantics it queries (`tm_yday` of Dec 31 is 366 exactly in leap years). -/
def days_in_year (year : ℕ) : ℕ := if is_leap_year year then 366 else 365

/-- Month lengths of a year (the `datetime` calendar). -/
def month_lengths (year : ℕ) : List ℕ :=
  [31, if is_leap_year year then 29 else 28, 31, 30, 31, 30, 31, 31, 30, 31, 30, 31]

/-- A `datetime.date`-like value. -/
structure SimpleDate where
  year : ℕ
  month : ℕ
  day : ℕ
deriving DecidableEq

/-- Walk month lengths to convert a 0-based day-of-year index to a
`(month, day)` pair. -/
def date_of_year_day_aux : List ℕ → ℕ → ℕ → ℕ × ℕ
  | [], m, i => (m, i + 1)
  | len :: rest, m, i => if i < len then (m, i + 1) else date_of_year_day_aux rest (m + 1) (i - len)

/-- The date reached from Jan 1 after `i` applications of `+= one_day`
inside the render loop (which walks every day of `year` in order). -/
def date_of_year_day (year i : ℕ) : SimpleDate :=
  let md := date_of_year_day_aux (month_lengths year) 1 i
  ⟨year, md.1, md.2⟩

/-- Days in all years before `year` (proleptic Gregorian, as in
`datetime.date.toordinal`). -/
def days_before_year (year : ℕ) : ℕ :=
  365 * (year - 1) + ((year - 1) / 4 + (year - 1) / 400) - (year - 1) / 100

/-- Days in the months of `year` strictly before month `m`. -/
def days_before_month (year m : ℕ) : ℕ := ((month_lengths year).take (m - 1)).sum

/-- `datetime.date.toordinal`: day 1 is 0001-01-01. -/
def date_to_ordinal (d : SimpleDate) : ℕ :=
  days_before_year d.year + days_before_month d.year d.month + d.day

/-- Python `date.weekday()`: Monday is 0; ordinal day 1 is a Monday. -/
def py_weekday (d : SimpleDate) : ℕ := (date_to_ordinal d - 1) % 7

/-- `weekday_js` from `wallpaper.py`: `(date_obj.weekday() + 1) % 7`. -/
def weekday_js (d : SimpleDate) : ℕ := (py_weekday d + 1) % 7

/-- Python `date` comparison (lexicographic on `(year, month, day)`). -/
def date_lt (a b : SimpleDate) : Bool :=
  decide (a.year < b.year ∨ (a.year = b.year ∧
    (a.month < b.month ∨ (a.month = b.month ∧ a.day < b.day))))

/-- Zero-pad a character list on the left to width `w`. -/
def pad_left (w : ℕ) (s : List Char) : List Char := List.replicate (w - s.length) '0' ++ s

/-- `cursor.strftime("%Y-%m-%d")`: the zero-padded ISO date key. -/
def date_key (d : SimpleDate) : String :=
  String.mk (pad_left 4 (nat_chars d.year) ++
    '-' :: (pad_left 2 (nat_chars d.month) ++ '-' :: pad_left 2 (nat_chars d.day)))

-- ## Layout engine (`wallpaper.py` lines 244-290, 344-347)

/-- `resolve_effective_gap` from `wallpaper.py` (`SPACING_TO_GAP` with
default `"medium"`). -/
def resolve_effective_gap (spacing_key : String) (grid_columns : ℤ) : ℕ :=
  let gap : ℤ :=
    if spacing_key = "tight" then 2
    else if spacing_key = "medium" then 4
    else if spacing_key = "wide" then 6
    else 4
  let dense_columns : ℤ := max 0 (grid_columns - 20)
  let gap_reduction : ℤ := min 2 (dense_columns / 5)
  (max 1 (gap - gap_reduction)).toNat

/-- The `utilization` value computed inside `resolve_dot_size`. -/
def resolve_utilization (spacing_key : String) (grid_columns : ℤ) : ℚ :=
  let dense_frac : ℚ := max 0 (min 1 (((grid_columns : ℚ) - 14) / 17))
  let base_utilization : ℚ :=
    if spacing_key = "tight" then 84 / 100
    else if spacing_key = "medium" then 80 / 100
    else if spacing_key = "wide" then 74 / 100
    else 80 / 100
  min (92 / 100) (base_utilization + dense_frac * (8 / 100))

/-- `resolve_dot_size` from `wallpaper.py`.  The intermediate
`int(round(slot_size * utilization))` is nonnegative, so the `ℕ` result via
`Int.toNat` agrees with the Python `int` computation. -/
def resolve_dot_size (slot_size : ℕ) (spacing_key : String) (grid_columns : ℤ) : ℕ :=
  let dot_size := pyround ((slot_size : ℚ) * resolve_utilization spacing_key grid_columns)
  max 8 (min slot_size dot_size.toNat)

/-- `resolve_grid_top` from `wallpaper.py`; `int(WALLPAPER_HEIGHT * 0.60)`
is `1677` (truncation of `1677.6`, where float and exact values agree). -/
def resolve_grid_top (position : PyVal) (grid_height protected_top available_height : ℤ) : ℤ :=
  let min_top := max 0 protected_top
  let max_top := (WALLPAPER_HEIGHT : ℤ) - (BOTTOM_INSET : ℤ) - grid_height
  if max_top < min_top then max 0 max_top
  else if py_eq_str position "center" then
    clamp_int (min_top + max 0 ((available_height - grid_height) / 2)) min_top max_top
  else if protected_top > (TOP_INSET_CLOCK : ℤ) then
    clamp_int (min_top + min 56 ((max 0 (available_height - grid_height)) / 7)) min_top max_top
  else
    let top_safe := (TOP_INSET_CLOCK : ℤ) + 36
    let min_top2 := max min_top top_safe
    let target_visual_center_y : ℤ := ((WALLPAPER_HEIGHT * 60 / 100 : ℕ) : ℤ)
    let centered_top := target_visual_center_y - (grid_height / 2)
    clamp_int (centered_top + min 72 ((max 0 (available_height - grid_height)) / 5)) min_top2 max_top

/-- The grid row count computed inline in `render_wallpaper_png` (line
325): `(days_in_year(year) + jan1_offset + grid_columns - 1) // grid_columns`
with `jan1_offset = weekday_js(jan1)`. -/
def grid_rows_count (year : ℕ) (grid_columns : ℤ) : ℤ :=
  (((days_in_year year + weekday_js ⟨year, 1, 1⟩ : ℕ) : ℤ) + grid_columns - 1) / grid_columns

/-- The corner radius computed inline in `render_wallpaper_png` (lines
344-347): 0 for the `"square"` shape, else `max(1, int(dot_size * 0.24))`.
`int(dot_size * 0.24)` is truncation; for all dot sizes below `2^40` the
float product never crosses an integer boundary, so it equals the exact
floor `dot_size * 24 / 100`. -/
def resolve_dot_radius (shape : PyVal) (dot_size : ℕ) : ℕ :=
  if py_eq_str shape "square" then 0
  else max 1 (dot_size * 24 / 100)

-- ## PNG encoder (`wallpaper.py` lines 209-233)

/-- One bit step of the reflected CRC-32 (polynomial `0xEDB88320`). -/
def crc32_poly_step (c : ℕ) : ℕ := if c % 2 = 1 then (c / 2) ^^^ 0xEDB88320 else c / 2

/-- Consume one byte of the CRC-32 state. -/
def crc32_update (crc byte : ℕ) : ℕ := crc32_poly_step^[8] (crc ^^^ byte)

/-- `zlib.crc32(data, start)`: the standard CRC-32 used by zlib. -/
def zlib_crc32 (data : List ℕ) (start : ℕ) : ℕ :=
  (data.foldl crc32_update (start ^^^ 0xFFFFFFFF)) ^^^ 0xFFFFFFFF

/-- `struct.pack(">I", n)`: big-endian 4-byte encoding. -/
def u32be (n : ℕ) : List ℕ := [n / 2 ^ 24 % 256, n / 2 ^ 16 % 256, n / 2 ^ 8 % 256, n % 256]

/-- The 8-byte PNG signature `b"\x89PNG\r\n\x1a\n"`. -/
def PNG_SIGNATURE : List ℕ := [137, 80, 78, 71, 13, 10, 26, 10]

def IHDR_TYPE : List ℕ := [73, 72, 68, 82]
def IDAT_TYPE : List ℕ := [73, 68, 65, 84]
def IEND_TYPE : List ℕ := [73, 69, 78, 68]

/-- `png_chunk` from `wallpaper.py`: the CRC is seeded with the chunk type
and continued over the data, then masked with `& 0xFFFFFFFF` (modelled as
`% 2^32`). -/
def png_chunk (chunk_type data : List ℕ) : List ℕ :=
  let crc := zlib_crc32 data (zlib_crc32 chunk_type 0) % 2 ^ 32
  u32be data.length ++ chunk_type ++ data ++ u32be crc

/-- The scanline serialization of `encode_png_rgba`: each row prefixed with
filter byte 0 followed by its `width*4` RGBA bytes.  (`Array.getD _ 0` pads
a too-short buffer where a Python slice would truncate; rendering always
passes a buffer of exactly `width*height*4` bytes, where both agree.) -/
def png_scanlines (width height : ℕ) (rgba : Array ℕ) : List ℕ :=
  (List.range height).flatMap (fun y =>
    0 :: (List.range (width * 4)).map (fun j => rgba.getD (y * (width * 4) + j) 0))

/-- `encode_png_rgba` from `wallpaper.py`, parameterized by the deflate
compressor (`zlib.compress(..., level=6)`), which is opaque to this
development. -/
def encode_png_rgba (compress : List ℕ → List ℕ) (width height : ℕ) (rgba : Array ℕ) : List ℕ :=
  let compressed := compress (png_scanlines width height rgba)
  let ihdr := u32be width ++ u32be height ++ [8, 6, 0, 0, 0]
  PNG_SIGNATURE ++ png_chunk IHDR_TYPE ihdr ++ png_chunk IDAT_TYPE compressed ++
    png_chunk IEND_TYPE []

/-- A chunk as described by the specification: 4-byte big-endian length,
4-byte type, payload, 4-byte big-endian CRC32 computed over
(type + payload). -/
def spec_chunk (chunk_type payload : List ℕ) : List ℕ :=
  u32be payload.length ++ chunk_type ++ payload ++ u32be (zlib_crc32 (chunk_type ++ payload) 0)

/-- The PNG stream shape asserted by the specification: the 8-byte
signature followed by exactly one IHDR chunk (width 1290, height 2796, bit
depth 8, color type 6, remaining fields 0), one IDAT chunk and one empty
IEND chunk, in that order. -/
def png_stream_well_formed (stream : List ℕ) : Prop :=
  ∃ idat_payload : List ℕ,
    stream = PNG_SIGNATURE ++
      spec_chunk IHDR_TYPE (u32be 1290 ++ u32be 2796 ++ [8, 6, 0, 0, 0]) ++
      spec_chunk IDAT_TYPE idat_payload ++
      spec_chunk IEND_TYPE []

-- ## Day classification and full rendering (`wallpaper.py` lines 293-387)

/-- The day-classification block of the render loop (`wallpaper.py` lines
362-375): look up the mood entry for the cursor's date key (only a
*non-empty dict* value is truthy), otherwise classify by comparison with
`today`. -/
def resolve_day_dot (mood_colors : List (String × RGB)) (empty_rgb future_rgb : RGB)
    (moods : List (String × PyVal)) (cursor today : SimpleDate) : String × RGB :=
  let mood : Option (List (String × PyVal)) :=
    match List.lookup (date_key cursor) moods with
    | some (PyVal.vdict es) => some es
    | _ => none
  match mood with
  | some es =>
    if es.isEmpty then
      if date_lt today cursor then ("future", future_rgb) else ("empty", empty_rgb)
    else
      let level := py_str ((List.lookup "level" es).getD PyVal.vnone)
      ("mood", (List.lookup level mood_colors).getD empty_rgb)
  | none => if date_lt today cursor then ("future", future_rgb) else ("empty", empty_rgb)

/-- The `user` dict passed to `render_wallpaper_png`: `user["theme"]` must
be a dict; `user.get("moods")` may be anything or absent. -/
structure PyUser where
  theme : List (String × PyVal)
  moods : Option PyVal

/-- `render_wallpaper_png` from `wallpaper.py`, parameterized by the
deflate compressor and by the ambient date `env_today` that models the
`dt.date.today()` call used when no explicit date is supplied. -/
def render_wallpaper_png (compress : List ℕ → List ℕ) (env_today : SimpleDate)
    (user : PyUser) (today_arg : Option SimpleDate) : List ℕ :=
  let today := today_arg.getD env_today
  let year := today.year
  let jan1 : SimpleDate := ⟨year, 1, 1⟩
  let jan1_offset := weekday_js jan1
  let theme := user.theme
  let bg_rgb := hex_to_rgb (py_dict_get_d theme "bg_color" (PyVal.vstr DEFAULT_BG_COLOR)) (13, 17, 23)
  let empty_hex := normalize_hex_color (py_dict_get theme "empty_color") none
  let empty_rgb :=
    match empty_hex with
    | some h => hex_to_rgb (PyVal.vstr h) (derive_empty_color bg_rgb)
    | none => derive_empty_color bg_rgb
  let future_rgb := blend_rgb empty_rgb bg_rgb (1 / 2)
  let mood_colors_src : List (String × PyVal) :=
    match py_dict_get theme "mood_colors" with
    | PyVal.vdict es => es
    | _ => []
  let mood_colors : List (String × RGB) :=
    (List.range 5).map (fun i =>
      let level := i + 1
      let default_hex := (List.lookup (nat_str level) DEFAULT_MOOD_COLORS).getD ""
      (nat_str level,
        hex_to_rgb (py_dict_get_d mood_colors_src (nat_str level) (PyVal.vstr default_hex))
          (hex_to_rgb (PyVal.vstr default_hex) (0, 0, 0))))
  let spacing_key : String :=
    match py_dict_get_d theme "spacing" (PyVal.vstr "medium") with
    | PyVal.vstr s => s
    | _ => "<nonstr>"
  let avoid_lock_screen_ui :=
    normalize_theme_avoid_lock_screen_ui (py_dict_get theme "avoid_lock_screen_ui") false
  let grid_columns : ℤ := normalize_theme_columns (py_dict_get theme "columns") DEFAULT_COLUMNS
  let gap : ℕ := resolve_effective_gap spacing_key grid_columns
  let grid_rows : ℤ := grid_rows_count year grid_columns
  let available_width : ℤ := (WALLPAPER_WIDTH : ℤ) - (SIDE_INSET : ℤ) * 2
  let protected_top := resolve_protected_top avoid_lock_screen_ui
  let available_height : ℤ := (WALLPAPER_HEIGHT : ℤ) - protected_top - (BOTTOM_INSET : ℤ)
  let slot_by_width := (available_width - (gap : ℤ) * (grid_columns - 1)) / grid_columns
  let slot_by_height := (available_height - (gap : ℤ) * (grid_rows - 1)) / grid_rows
  let slot_size : ℤ := max 2 (min slot_by_width slot_by_height)
  let grid_width := slot_size * grid_columns + (gap : ℤ) * (grid_columns - 1)
  let grid_height := slot_size * grid_rows + (gap : ℤ) * (grid_rows - 1)
  let top := resolve_grid_top (py_dict_get theme "position") grid_height protected_top available_height
  let left := ((WALLPAPER_WIDTH : ℤ) - grid_width) / 2
  let dot_size : ℕ := resolve_dot_size slot_size.toNat spacing_key grid_columns
  let dot_inset : ℤ := (slot_size - (dot_size : ℤ)) / 2
  let radius : ℕ := resolve_dot_radius (py_dict_get theme "shape") dot_size
  let pixels0 : Array ℕ := mkArray (WALLPAPER_WIDTH * WALLPAPER_HEIGHT * 4) 0
  let pixels1 := fill_background_gradient pixels0 WALLPAPER_WIDTH WALLPAPER_HEIGHT bg_rgb
  let moods : List (String × PyVal) :=
    match user.moods with
    | some (PyVal.vdict es) => es
    | _ => []
  let pixels2 := (List.range (days_in_year year)).foldl
    (fun buf day_index =>
      let cursor := date_of_year_day year day_index
      let shifted_index : ℤ := (day_index : ℤ) + (jan1_offset : ℤ)
      let col_index := shifted_index % grid_columns
      let row_index := shifted_index / grid_columns
      let kc := resolve_day_dot mood_colors empty_rgb future_rgb moods cursor today
      let x := left + col_index * (slot_size + (gap : ℤ)) + dot_inset
      let y := top + row_index * (slot_size + (gap : ℤ)) + dot_inset
      let center_x := x + ((dot_size / 2 : ℕ) : ℤ)
      let center_y := y + ((dot_size / 2 : ℕ) : ℤ)
      let color := apply_dot_readability_treatment kc.2 bg_rgb kc.1 center_x center_y
      fill_cell buf WALLPAPER_WIDTH WALLPAPER_HEIGHT x y (dot_size : ℤ) (dot_size : ℤ) color (radius : ℤ))
    pixels1
  encode_png_rgba compress WALLPAPER_WIDTH WALLPAPER_HEIGHT pixels2

-- ## Measures and evaluation companions used to state and check claims

/-- L1 (sum of channel differences) distance between two colors: the
measure used to formalize "closer to the background". -/
def dist_l1 (a b : RGB) : ℕ :=
  ((a.1 : ℤ) - (b.1 : ℤ)).natAbs + ((a.2.1 : ℤ) - (b.2.1 : ℤ)).natAbs +
    ((a.2.2 : ℤ) - (b.2.2 : ℤ)).natAbs

/-- Channel spread (max channel minus min channel): the measure used to
formalize "saturation". -/
def channel_spread (c : RGB) : ℕ :=
  max c.1 (max c.2.1 c.2.2) - min c.1 (min c.2.1 c.2.2)

/-- Integer-only companion of `blend_channel` for a percent alpha `p/100`
(see `blend_channel_to_pct`). -/
def blend_channel_pct (a b p : ℕ) : ℕ :=
  (max 0 (min 255 (pyfrac ((a : ℤ) * (100 - (p : ℤ)) + (b : ℤ) * (p : ℤ)) 100))).toNat

/-- Integer-only companion of `blend_rgb` for a percent alpha. -/
def blend_rgb_pct (a b : RGB) (p : ℕ) : RGB :=
  (blend_channel_pct a.1 b.1 p, blend_channel_pct a.2.1 b.2.1 p,
    blend_channel_pct a.2.2 b.2.2 p)

/-- Integer-only companion of `desaturate_rgb`. -/
def desaturate_pct (c : RGB) : RGB :=
  let lum := (pyfrac (2126 * (c.1 : ℤ) + 7152 * (c.2.1 : ℤ) + 722 * (c.2.2 : ℤ)) 10000).toNat
  (lum, lum, lum)

/-- The default background `#0d1117` as RGB. -/
def default_bg_rgb : RGB := (13, 17, 23)

/-- The five default mood colors as RGB values (see
`C3_safe_zone_amended` for the proof that they are the parsed
`DEFAULT_MOOD_COLORS`). -/
def default_mood_rgb : List RGB :=
  [(239, 68, 68), (249, 115, 22), (234, 179, 8), (34, 197, 94), (59, 130, 246)]

-- ## Helper lemmas

theorem floor_le_pyround (q : ℚ) : ⌊q⌋ ≤ pyround q := by
  unfold pyround; split_ifs <;> omega

theorem pyround_le_floor_add_one (q : ℚ) : pyround q ≤ ⌊q⌋ + 1 := by
  unfold pyround; split_ifs <;> omega

theorem le_pyround (q : ℚ) : q - 1 / 2 ≤ (pyround q : ℚ) := by
  have h0 := Int.lt_floor_add_one q
  unfold pyround
  split_ifs with h1 h2 h3 <;> push_cast <;> linarith

theorem pyround_le (q : ℚ) : (pyround q : ℚ) ≤ q + 1 / 2 := by
  have h0 := Int.floor_le q
  unfold pyround
  split_ifs with h1 h2 h3 <;> push_cast <;> linarith

theorem pyround_nonneg {q : ℚ} (h : 0 ≤ q) : 0 ≤ pyround q :=
  le_trans (Int.floor_nonneg.2 h) (floor_le_pyround q)

theorem pyround_mono {q r : ℚ} (h : q ≤ r) : pyround q ≤ pyround r := by
  rcases lt_or_eq_of_le (Int.floor_le_floor h) with hf | hf
  · calc pyround q ≤ ⌊q⌋ + 1 := pyround_le_floor_add_one q
      _ ≤ ⌊r⌋ := by omega
      _ ≤ pyround r := floor_le_pyround r
  · have hql := Int.floor_le q
    have hru := Int.lt_floor_add_one r
    simp only [pyround, hf]
    split_ifs <;> first
      | rfl
      | omega
      | (exfalso; linarith)

/-- Evaluation bridge: `pyround` of a concrete fraction is the executable
integer computation `pyfrac`. -/
theorem pyround_div (n : ℤ) (d : ℕ) (hd : 0 < d) :
    pyround ((n : ℚ) / (d : ℚ)) = pyfrac n d := by
  have hdq : (0 : ℚ) < (d : ℚ) := by exact_mod_cast hd
  have hfl : ⌊(n : ℚ) / (d : ℚ)⌋ = n / (d : ℤ) := Rat.floor_intCast_div_natCast n d
  have hexp : (2 * (n / (d : ℤ)) + 1) * (d : ℤ) = 2 * ((n / (d : ℤ)) * d) + d := by ring
  have hdm := Int.ediv_add_emod n (d : ℤ)
  have hc1 : (2 * ((n : ℚ) / d) < 2 * ((n / (d : ℤ) : ℤ) : ℚ) + 1) ↔
      2 * (n - n / (d : ℤ) * d) < (d : ℤ) := by
    rw [show 2 * ((n : ℚ) / d) = ((2 * n : ℤ) : ℚ) / (d : ℚ) by push_cast; ring]
    rw [div_lt_iff₀ hdq]
    rw [show (2 * ((n / (d : ℤ) : ℤ) : ℚ) + 1) * (d : ℚ) =
        (((2 * (n / (d : ℤ)) + 1) * d : ℤ) : ℚ) by push_cast; ring]
    rw [Int.cast_lt]
    omega
  have hc2 : (2 * ((n / (d : ℤ) : ℤ) : ℚ) + 1 < 2 * ((n : ℚ) / d)) ↔
      (d : ℤ) < 2 * (n - n / (d : ℤ) * d) := by
    rw [show 2 * ((n : ℚ) / d) = ((2 * n : ℤ) : ℚ) / (d : ℚ) by push_cast; ring]
    rw [lt_div_iff₀ hdq]
    rw [show (2 * ((n / (d : ℤ) : ℤ) : ℚ) + 1) * (d : ℚ) =
        (((2 * (n / (d : ℤ)) + 1) * d : ℤ) : ℚ) by push_cast; ring]
    rw [Int.cast_lt]
    omega
  unfold pyround pyfrac
  rw [hfl]
  simp only [hc1, hc2]

/-- Evaluation bridge for `blend_channel` at a concrete fraction. -/
theorem blend_channel_eval (a b : ℕ) (alpha : ℚ) (n : ℤ) (d : ℕ) (hd : 0 < d)
    (h : (a : ℚ) * (1 - alpha) + (b : ℚ) * alpha = (n : ℚ) / (d : ℚ)) :
    blend_channel a b alpha = (max 0 (min 255 (pyfrac n d))).toNat := by
  rw [blend_channel, h, pyround_div n d hd]

/-- Evaluation bridge for `resolve_dot_size` at a concrete fraction. -/
theorem resolve_dot_size_eval (slot : ℕ) (sp : String) (c : ℤ) (n : ℤ) (d : ℕ) (hd : 0 < d)
    (h : (slot : ℚ) * resolve_utilization sp c = (n : ℚ) / (d : ℚ)) :
    resolve_dot_size slot sp c = max 8 (min slot (pyfrac n d).toNat) := by
  simp only [resolve_dot_size]
  rw [h, pyround_div n d hd]

/-- A channel blend whose exact value lies at least `0.54` above `a` and
at most `254.5` yields a result strictly above `a` (the clamps do not
interfere). -/
theorem blend_channel_gt (a b : ℕ) (alpha : ℚ)
    (hlow : (a : ℚ) + 54 / 100 ≤ (a : ℚ) * (1 - alpha) + (b : ℚ) * alpha)
    (hhigh : (a : ℚ) * (1 - alpha) + (b : ℚ) * alpha ≤ 2545 / 10) :
    a < blend_channel a b alpha := by
  set x : ℚ := (a : ℚ) * (1 - alpha) + (b : ℚ) * alpha with hx
  have h1 : (a : ℚ) + 4 / 100 ≤ (pyround x : ℚ) := by linarith [le_pyround x]
  have hlow' : (a : ℤ) < pyround x := by
    have : ((a : ℤ) : ℚ) < (pyround x : ℚ) := by push_cast; linarith
    exact_mod_cast this
  have hup : pyround x ≤ 255 := by
    have : (pyround x : ℚ) ≤ ((255 : ℤ) : ℚ) := by push_cast; linarith [pyround_le x]
    exact_mod_cast this
  have h0 : (0 : ℤ) ≤ pyround x := by omega
  rw [blend_channel, ← hx, min_eq_right hup, max_eq_right h0]
  omega

/-- A channel blend whose exact value is nonnegative and at least `0.56`
below `a ≤ 255` yields a result strictly below `a`. -/
theorem blend_channel_lt (a b : ℕ) (alpha : ℚ) (ha : a ≤ 255)
    (hhigh : (a : ℚ) * (1 - alpha) + (b : ℚ) * alpha ≤ (a : ℚ) - 56 / 100)
    (hlow : 0 ≤ (a : ℚ) * (1 - alpha) + (b : ℚ) * alpha) :
    blend_channel a b alpha < a := by
  set x : ℚ := (a : ℚ) * (1 - alpha) + (b : ℚ) * alpha with hx
  have hup : pyround x < (a : ℤ) := by
    have : (pyround x : ℚ) < ((a : ℤ) : ℚ) := by push_cast; linarith [pyround_le x]
    exact_mod_cast this
  have h0 : (0 : ℤ) ≤ pyround x := pyround_nonneg hlow
  have h255 : pyround x ≤ 255 := by
    have haz : (a : ℤ) ≤ 255 := by exact_mod_cast ha
    omega
  rw [blend_channel, ← hx, min_eq_right h255, max_eq_right h0]
  omega

/-- C7: for every background RGB color (channels ≤ 255), `derive_empty_color`
blends 0.18 toward white when the luminance `0.2126R + 0.7152G + 0.0722B` is
below 128 and 0.14 toward black otherwise, and the result always differs
from the background color itself. -/
theorem C7_derive_empty_color_distinct (r g b : ℕ)
    (hr : r ≤ 255) (hg : g ≤ 255) (hb : b ≤ 255) :
    (derive_empty_color (r, g, b) =
      if luminance_q (r, g, b) < 128 then blend_rgb (r, g, b) (255, 255, 255) (18 / 100)
      else blend_rgb (r, g, b) (0, 0, 0) (14 / 100)) ∧
    derive_empty_color (r, g, b) ≠ (r, g, b) := by
  refine ⟨rfl, ?_⟩
  have hl' : luminance_q (r, g, b) =
      (2126 / 10000) * (r : ℚ) + (7152 / 10000) * (g : ℚ) + (722 / 10000) * (b : ℚ) := rfl
  by_cases hl : luminance_q (r, g, b) < 128
  · have hch : r ≤ 252 ∨ g ≤ 252 ∨ b ≤ 252 := by
      by_contra hno
      push_neg at hno
      obtain ⟨h1, h2, h3⟩ := hno
      have c1 : (252 : ℚ) < (r : ℚ) := by exact_mod_cast h1
      have c2 : (252 : ℚ) < (g : ℚ) := by exact_mod_cast h2
      have c3 : (252 : ℚ) < (b : ℚ) := by exact_mod_cast h3
      rw [hl'] at hl
      linarith
    rw [derive_empty_color, if_pos hl]
    intro heq
    simp only [blend_rgb, Prod.mk.injEq] at heq
    obtain ⟨e1, e2, e3⟩ := heq
    rcases hch with hc | hc | hc
    · have hcq : (r : ℚ) ≤ 252 := by exact_mod_cast hc
      exact absurd e1 (Nat.ne_of_gt (blend_channel_gt r 255 (18 / 100)
        (by push_cast; linarith) (by push_cast; linarith)))
    · have hcq : (g : ℚ) ≤ 252 := by exact_mod_cast hc
      exact absurd e2 (Nat.ne_of_gt (blend_channel_gt g 255 (18 / 100)
        (by push_cast; linarith) (by push_cast; linarith)))
    · have hcq : (b : ℚ) ≤ 252 := by exact_mod_cast hc
      exact absurd e3 (Nat.ne_of_gt (blend_channel_gt b 255 (18 / 100)
        (by push_cast; linarith) (by push_cast; linarith)))
  · push_neg at hl
    have hch : 4 ≤ r ∨ 4 ≤ g ∨ 4 ≤ b := by
      by_contra hno
      push_neg at hno
      obtain ⟨h1, h2, h3⟩ := hno
      have c1 : (r : ℚ) ≤ 3 := by exact_mod_cast Nat.lt_succ_iff.mp h1
      have c2 : (g : ℚ) ≤ 3 := by exact_mod_cast Nat.lt_succ_iff.mp h2
      have c3 : (b : ℚ) ≤ 3 := by exact_mod_cast Nat.lt_succ_iff.mp h3
      have c0r : (0 : ℚ) ≤ (r : ℚ) := Nat.cast_nonneg r
      have c0g : (0 : ℚ) ≤ (g : ℚ) := Nat.cast_nonneg g
      have c0b : (0 : ℚ) ≤ (b : ℚ) := Nat.cast_nonneg b
      rw [hl'] at hl
      linarith
    rw [derive_empty_color, if_neg (not_lt.mpr hl)]
    intro heq
    simp only [blend_rgb, Prod.mk.injEq] at heq
    obtain ⟨e1, e2, e3⟩ := heq
    rcases hch with hc | hc | hc
    · have hcq : (4 : ℚ) ≤ (r : ℚ) := by exact_mod_cast hc
      exact absurd e1 (Nat.ne_of_lt (blend_channel_lt r 0 (14 / 100) hr
        (by push_cast; linarith) (by push_cast; linarith)))
    · have hcq : (4 : ℚ) ≤ (g : ℚ) := by exact_mod_cast hc
      exact absurd e2 (Nat.ne_of_lt (blend_channel_lt g 0 (14 / 100) hg
        (by push_cast; linarith) (by push_cast; linarith)))
    · have hcq : (4 : ℚ) ≤ (b : ℚ) := by exact_mod_cast hc
      exact absurd e3 (Nat.ne_of_lt (blend_channel_lt b 0 (14 / 100) hb
        (by push_cast; linarith) (by push_cast; linarith)))

/-- Witness for C7 at the default background `#0d1117 = (13, 17, 23)`. -/
theorem C7_derive_empty_color_distinct_witness :
    (13 : ℕ) ≤ 255 ∧ derive_empty_color (13, 17, 23) ≠ (13, 17, 23) :=
  ⟨by decide, (C7_derive_empty_color_distinct 13 17 23 (by decide) (by decide) (by decide)).2⟩

/-- Concrete value of the utilization for medium spacing at 14 columns. -/
theorem resolve_utilization_medium_14 : resolve_utilization "medium" 14 = 4 / 5 := by
  simp only [resolve_utilization]
  rw [if_neg (by decide)]
  norm_num [min_def, max_def]

/-- C1 (amended): the corner radius is 0 for the `"square"` shape and
otherwise `max(1, floor(dot_size * 0.24))` — truncation, not rounding; the
legacy `"rough"` shape is treated exactly like `"rounded"` (non-square). -/
theorem C1_corner_radius_amended (shape : PyVal) (d : ℕ) :
    resolve_dot_radius shape d =
      (if py_eq_str shape "square" then 0 else max 1 (⌊(d : ℚ) * (24 / 100)⌋).toNat) ∧
    resolve_dot_radius (PyVal.vstr "rough") d = resolve_dot_radius (PyVal.vstr "rounded") d := by
  have hfl : ⌊(d : ℚ) * (24 / 100)⌋ = ((d * 24 : ℕ) : ℤ) / ((100 : ℕ) : ℤ) := by
    rw [show (d : ℚ) * (24 / 100) = (((d * 24 : ℕ) : ℤ) : ℚ) / ((100 : ℕ) : ℚ) by push_cast; ring]
    exact Rat.floor_intCast_div_natCast _ _
  constructor
  · rw [resolve_dot_radius]
    by_cases h : py_eq_str shape "square"
    · rw [if_pos h, if_pos h]
    · rw [if_neg h, if_neg h, hfl]
      omega
  · rfl

/-- C1 counterexample: at the computed dot size 62 (reached by
`resolve_dot_size(78, "medium", 14)`, the default theme's geometry), the
code's radius is `max(1, int(62*0.24)) = 14` while the claimed formula
`max(1, round(62*0.24))` gives 15. -/
theorem C1_corner_radius_counterexample :
    resolve_dot_radius (PyVal.vstr "rounded") 62 = 14 ∧
    max 1 (pyround ((62 : ℚ) * (24 / 100))).toNat = 15 ∧
    resolve_dot_size 78 "medium" 14 = 62 := by
  refine ⟨by decide, ?_, ?_⟩
  · rw [show ((62 : ℚ) * (24 / 100)) = ((1488 : ℤ) : ℚ) / ((100 : ℕ) : ℚ) by norm_num,
      pyround_div 1488 100 (by norm_num)]
    decide
  · rw [resolve_dot_size_eval 78 "medium" 14 312 5 (by norm_num)
      (by norm_num [resolve_utilization_medium_14])]
    decide

/-- Utilization grows from 14 to 31 columns for every spacing key. -/
theorem resolve_utilization_mono_14_31 (sp : String) :
    resolve_utilization sp 14 ≤ resolve_utilization sp 31 := by
  unfold resolve_utilization
  have h14 : max (0 : ℚ) (min 1 ((((14 : ℤ) : ℚ) - 14) / 17)) = 0 := by
    norm_num
  have h31 : max (0 : ℚ) (min 1 ((((31 : ℤ) : ℚ) - 14) / 17)) = 1 := by
    norm_num
  rw [h14, h31]
  exact min_le_min (le_refl _) (by split_ifs <;> linarith)

/-- C2 (amended): for slot sizes of at least 8 px the dot size never
exceeds the slot size; the dot size always has an 8 px floor; the
utilization is capped at 0.92; and for fixed spacing
`dot_size(columns=31) ≥ dot_size(columns=14)`.  (For slot sizes below 8 the
8 px floor wins and the dot size exceeds the slot size; see the
counterexample.) -/
theorem C2_resolve_dot_size_amended (slot : ℕ) (sp : String) (c : ℤ) (h8 : 8 ≤ slot) :
    resolve_dot_size slot sp c ≤ slot ∧ 8 ≤ resolve_dot_size slot sp c ∧
    resolve_utilization sp c ≤ 92 / 100 ∧
    resolve_dot_size slot sp 14 ≤ resolve_dot_size slot sp 31 := by
  refine ⟨?_, ?_, ?_, ?_⟩
  · simp only [resolve_dot_size]; omega
  · simp only [resolve_dot_size]; omega
  · simp only [resolve_utilization]; exact min_le_left _ _
  · have hu := resolve_utilization_mono_14_31 sp
    have hm : pyround ((slot : ℚ) * resolve_utilization sp 14) ≤
        pyround ((slot : ℚ) * resolve_utilization sp 31) :=
      pyround_mono (mul_le_mul_of_nonneg_left hu (by positivity))
    simp only [resolve_dot_size]
    omega

/-- Witness for C2 at slot 20, medium spacing, 20 columns. -/
theorem C2_resolve_dot_size_amended_witness :
    resolve_dot_size 20 "medium" 20 ≤ 20 ∧ 8 ≤ resolve_dot_size 20 "medium" 20 ∧
    resolve_utilization "medium" 20 ≤ 92 / 100 ∧
    resolve_dot_size 20 "medium" 14 ≤ resolve_dot_size 20 "medium" 31 :=
  C2_resolve_dot_size_amended 20 "medium" 20 (by decide)

/-- C2 counterexample: at slot size 2 the computed dot size is 8, which
exceeds the slot size, refuting "dot_size ≤ slot_size always" over every
slot size. -/
theorem C2_resolve_dot_size_counterexample :
    resolve_dot_size 2 "medium" 14 = 8 ∧ ¬ (resolve_dot_size 2 "medium" 14 ≤ 2) := by
  have h : resolve_dot_size 2 "medium" 14 = max 8 (min 2 (pyfrac 8 5).toNat) :=
    resolve_dot_size_eval 2 "medium" 14 8 5 (by norm_num)
      (by norm_num [resolve_utilization_medium_14])
  rw [h]
  exact ⟨by decide, by decide⟩

/-- Percent-alpha blends evaluate by integer arithmetic. -/
theorem blend_channel_to_pct (a b : ℕ) (alpha : ℚ) (p : ℕ) (h : alpha = (p : ℚ) / 100) :
    blend_channel a b alpha = blend_channel_pct a b p := by
  rw [blend_channel_pct]
  exact blend_channel_eval a b alpha ((a : ℤ) * (100 - (p : ℤ)) + (b : ℤ) * (p : ℤ)) 100
    (by norm_num) (by rw [h]; push_cast; ring)

/-- Percent-alpha RGB blends evaluate by integer arithmetic. -/
theorem blend_rgb_to_pct (a b : RGB) (alpha : ℚ) (p : ℕ) (h : alpha = (p : ℚ) / 100) :
    blend_rgb a b alpha = blend_rgb_pct a b p := by
  simp only [blend_rgb, blend_rgb_pct, blend_channel_to_pct _ _ alpha p h]

/-- `desaturate_rgb` evaluates by integer arithmetic. -/
theorem desaturate_to_pct (c : RGB) : desaturate_rgb c = desaturate_pct c := by
  rw [desaturate_rgb, desaturate_pct,
    show luminance_q c =
      ((2126 * (c.1 : ℤ) + 7152 * (c.2.1 : ℤ) + 722 * (c.2.2 : ℤ) : ℤ) : ℚ) / ((10000 : ℕ) : ℚ) by
        rw [luminance_q]; push_cast; ring,
    pyround_div _ _ (by norm_num)]
  norm_num

/-- C3 (amended): a mood dot whose center lies inside the clock-safe box
(x in [17%, 83%] of width, y in [5% of height, clock_inset+220]) is
rendered with exactly the treated color — 82% desaturation toward its
luminance-gray followed by a 52% blend toward the background — while
outside the box the color is unchanged; for each of the five default mood
colors against the default background the treated color is strictly less
saturated and strictly closer to the background.  (For arbitrary color
pairs the strict relations can fail; see the counterexample.) -/
theorem C3_safe_zone_amended :
    (∀ (color bg : RGB) (cx cy : ℤ), point_in_box cx cy clock_safe_box = true →
      apply_dot_readability_treatment color bg "mood" cx cy =
        blend_rgb (blend_rgb color (desaturate_rgb color) (82 / 100)) bg (52 / 100)) ∧
    (∀ (color bg : RGB) (cx cy : ℤ), point_in_box cx cy clock_safe_box = false →
      apply_dot_readability_treatment color bg "mood" cx cy = color) ∧
    DEFAULT_MOOD_COLORS.map (fun p => hex_to_rgb (PyVal.vstr p.2) (0, 0, 0)) = default_mood_rgb ∧
    (∀ c ∈ default_mood_rgb,
      channel_spread
          (blend_rgb (blend_rgb c (desaturate_rgb c) (82 / 100)) default_bg_rgb (52 / 100)) <
        channel_spread c ∧
      dist_l1 (blend_rgb (blend_rgb c (desaturate_rgb c) (82 / 100)) default_bg_rgb (52 / 100))
          default_bg_rgb <
        dist_l1 c default_bg_rgb) := by
  refine ⟨?_, ?_, ?_, ?_⟩
  · intro color bg cx cy h
    rw [apply_dot_readability_treatment, if_pos ⟨rfl, h⟩]
  · intro color bg cx cy h
    rw [apply_dot_readability_treatment, if_neg (by simp [h]),
      if_neg (by rintro ⟨h1 | h1, -⟩ <;> exact absurd h1 (by decide))]
  · decide
  · intro c hc
    rw [desaturate_to_pct, blend_rgb_to_pct _ _ (82 / 100) 82 (by norm_num),
      blend_rgb_to_pct _ _ (52 / 100) 52 (by norm_num)]
    fin_cases hc <;> exact ⟨by decide, by decide⟩

/-- Witness for C3 at the default level-1 mood color, one center inside the
clock-safe box and one outside. -/
theorem C3_safe_zone_amended_witness :
    apply_dot_readability_treatment (239, 68, 68) (13, 17, 23) "mood" 645 300 =
      blend_rgb (blend_rgb (239, 68, 68) (desaturate_rgb (239, 68, 68)) (82 / 100))
        (13, 17, 23) (52 / 100) ∧
    apply_dot_readability_treatment (239, 68, 68) (13, 17, 23) "mood" 645 2000 = (239, 68, 68) :=
  ⟨C3_safe_zone_amended.1 (239, 68, 68) (13, 17, 23) 645 300 (by decide),
    C3_safe_zone_amended.2.1 (239, 68, 68) (13, 17, 23) 645 2000 (by decide)⟩

/-- C3 counterexample: for the mood color equal to a saturated background
`(255, 0, 0)`, the dot treated inside the clock-safe box renders strictly
*farther* from the background (L1 distance 121) than the untouched dot
outside the box (distance 0), refuting the claimed strict inequalities for
every mood/background pair. -/
theorem C3_safe_zone_counterexample :
    point_in_box 645 300 clock_safe_box = true ∧
    point_in_box 645 2000 clock_safe_box = false ∧
    apply_dot_readability_treatment (255, 0, 0) (255, 0, 0) "mood" 645 300 = (176, 21, 21) ∧
    apply_dot_readability_treatment (255, 0, 0) (255, 0, 0) "mood" 645 2000 = (255, 0, 0) ∧
    ¬ (dist_l1 (176, 21, 21) (255, 0, 0) < dist_l1 (255, 0, 0) (255, 0, 0)) := by
  refine ⟨by decide, by decide, ?_, ?_, by decide⟩
  · rw [apply_dot_readability_treatment, if_pos ⟨rfl, by decide⟩, desaturate_to_pct,
      blend_rgb_to_pct _ _ (82 / 100) 82 (by norm_num),
      blend_rgb_to_pct _ _ (52 / 100) 52 (by norm_num)]
    decide
  · rw [apply_dot_readability_treatment, if_neg (by decide), if_neg (by decide)]

/-- Seeding a CRC-32 with the CRC of a prefix equals the CRC of the
concatenation (the identity behind `png_chunk`'s two-step CRC). -/
theorem zlib_crc32_append (t d_ : List ℕ) :
    zlib_crc32 d_ (zlib_crc32 t 0) = zlib_crc32 (t ++ d_) 0 := by
  unfold zlib_crc32
  rw [List.foldl_append, Nat.xor_cancel_right]

/-- The 4-byte big-endian encoding only sees the low 32 bits. -/
theorem u32be_mod (n : ℕ) : u32be (n % 2 ^ 32) = u32be n := by
  simp only [u32be, List.cons.injEq, and_true]
  norm_num
  omega

/-- C5: for every compressor and RGBA buffer, the encoded output is the
8-byte PNG signature followed by exactly one IHDR chunk (width 1290,
height 2796, bit depth 8, color type 6, remaining fields 0), one IDAT
chunk and one empty IEND chunk, in that order, each chunk being 4-byte
big-endian length + type + payload + 4-byte big-endian CRC32 of
(type + payload). -/
theorem C5_png_format (compress : List ℕ → List ℕ) (rgba : Array ℕ) :
    png_stream_well_formed (encode_png_rgba compress WALLPAPER_WIDTH WALLPAPER_HEIGHT rgba) := by
  refine ⟨compress (png_scanlines WALLPAPER_WIDTH WALLPAPER_HEIGHT rgba), ?_⟩
  simp only [encode_png_rgba, png_chunk, spec_chunk, u32be_mod, zlib_crc32_append]
  rfl

/-- The standard `(m + c - 1) / c` form of the ceiling of `m / c`. -/
theorem int_add_sub_one_ediv_eq_ceil (m c : ℤ) (hc : 0 < c) :
    (m + c - 1) / c = ⌈(m : ℚ) / (c : ℚ)⌉ := by
  have hcq : (0 : ℚ) < (c : ℚ) := by exact_mod_cast hc
  have hdm := Int.ediv_add_emod (m + c - 1) c
  have hr0 := Int.emod_nonneg (m + c - 1) (by omega : c ≠ 0)
  have hrlt := Int.emod_lt_of_pos (m + c - 1) hc
  set k := (m + c - 1) / c with hk
  symm
  rw [Int.ceil_eq_iff]
  constructor
  · rw [show ((k : ℚ) - 1) = (((k - 1) : ℤ) : ℚ) by push_cast; ring, lt_div_iff₀ hcq,
      show (((k - 1) : ℤ) : ℚ) * (c : ℚ) = (((k - 1) * c : ℤ) : ℚ) by push_cast; ring,
      Int.cast_lt]
    have hx : (k - 1) * c = c * k - c := by ring
    omega
  · rw [div_le_iff₀ hcq, show ((k : ℤ) : ℚ) * (c : ℚ) = ((k * c : ℤ) : ℚ) by push_cast; ring,
      Int.cast_le]
    have hx : k * c = c * k := by ring
    omega

/-- C6: for every target year and positive column count, the grid row
count equals the ceiling of `(days_in_year + weekday_offset_of_Jan1) /
columns`, where the Jan 1 offset uses the Sunday-origin convention
`(native_weekday + 1) mod 7`. -/
theorem C6_grid_rows_ceil (year : ℕ) (cols : ℤ) (hc : 0 < cols) :
    grid_rows_count year cols =
      ⌈((days_in_year year + weekday_js ⟨year, 1, 1⟩ : ℕ) : ℚ) / (cols : ℚ)⌉ ∧
    weekday_js ⟨year, 1, 1⟩ = (py_weekday ⟨year, 1, 1⟩ + 1) % 7 := by
  constructor
  · rw [grid_rows_count,
      int_add_sub_one_ediv_eq_ceil ((days_in_year year + weekday_js ⟨year, 1, 1⟩ : ℕ) : ℤ) cols hc]
    norm_num
  · rfl

/-- Witness for C6 at the year 2026 and the default 14 columns. -/
theorem C6_grid_rows_ceil_witness :
    grid_rows_count 2026 14 =
      ⌈((days_in_year 2026 + weekday_js ⟨2026, 1, 1⟩ : ℕ) : ℚ) / ((14 : ℤ) : ℚ)⌉ ∧
    weekday_js ⟨2026, 1, 1⟩ = (py_weekday ⟨2026, 1, 1⟩ + 1) % 7 :=
  C6_grid_rows_ceil 2026 14 (by decide)

/-- Membership in `int_range` is exactly the interval condition. -/
theorem mem_int_range {a b k : ℤ} : k ∈ int_range a b ↔ a ≤ k ∧ k < b := by
  constructor
  · intro h
    obtain ⟨i, hi, rfl⟩ := List.mem_map.mp h
    have := List.mem_range.mp hi
    omega
  · intro h
    exact List.mem_map.mpr ⟨(k - a).toNat, List.mem_range.mpr (by omega), by omega⟩

/-- C10: every pixel coordinate visited by `fill_cell`'s clipped loops —
for any cell position (including negative or overflowing ones) and any
cell size — lies in `[0, width) × [0, height)`, so the `set_pixel` buffer
index and its three successors are within the `width*height*4`-byte
buffer. -/
theorem C10_fill_cell_writes_in_bounds (width height : ℕ) (x y cell_w cell_h px py : ℤ)
    (hmem : (px, py) ∈ fill_cell_coords (width : ℤ) (height : ℤ) x y cell_w cell_h) :
    (0 ≤ px ∧ px < (width : ℤ) ∧ 0 ≤ py ∧ py < (height : ℤ)) ∧
    0 ≤ set_pixel_index width px py ∧
    set_pixel_index width px py + 3 < (width : ℤ) * (height : ℤ) * 4 := by
  rw [fill_cell_coords, List.mem_flatMap] at hmem
  obtain ⟨py', hpy', hmem2⟩ := hmem
  rw [List.mem_map] at hmem2
  obtain ⟨px', hpx', heq⟩ := hmem2
  obtain ⟨rfl, rfl⟩ : px' = px ∧ py' = py := by
    constructor <;> [exact congrArg Prod.fst heq; exact congrArg Prod.snd heq]
  obtain ⟨hy1, hy2⟩ := mem_int_range.mp hpy'
  obtain ⟨hx1, hx2⟩ := mem_int_range.mp hpx'
  have hb : 0 ≤ px' ∧ px' < (width : ℤ) ∧ 0 ≤ py' ∧ py' < (height : ℤ) := by
    refine ⟨le_trans (le_max_left 0 x) hx1, lt_of_lt_of_le hx2 (min_le_left _ _),
      le_trans (le_max_left 0 y) hy1, lt_of_lt_of_le hy2 (min_le_left _ _)⟩
  obtain ⟨hpx0, hpxw, hpy0, hpyh⟩ := hb
  refine ⟨⟨hpx0, hpxw, hpy0, hpyh⟩, ?_, ?_⟩
  · rw [set_pixel_index]
    have : 0 ≤ py' * (width : ℤ) := mul_nonneg hpy0 (by positivity)
    nlinarith
  · rw [set_pixel_index]
    have hw0 : (0 : ℤ) ≤ (width : ℤ) := by positivity
    have hstep : py' * (width : ℤ) ≤ ((height : ℤ) - 1) * (width : ℤ) :=
      mul_le_mul_of_nonneg_right (by omega) hw0
    nlinarith

/-- Witness for C10 at a cell overlapping the top-left canvas corner. -/
theorem C10_fill_cell_writes_in_bounds_witness :
    (((0 : ℤ), (0 : ℤ)) ∈ fill_cell_coords ((10 : ℕ) : ℤ) ((10 : ℕ) : ℤ) (-3) (-3) 5 5) ∧
    0 ≤ set_pixel_index 10 0 0 ∧
    set_pixel_index 10 0 0 + 3 < ((10 : ℕ) : ℤ) * ((10 : ℕ) : ℤ) * 4 :=
  ⟨by decide, (C10_fill_cell_writes_in_bounds 10 10 (-3) (-3) 5 5 0 0 (by decide)).2.1,
    (C10_fill_cell_writes_in_bounds 10 10 (-3) (-3) 5 5 0 0 (by decide)).2.2⟩

/-- C9: with an explicit target date, two renders with identical theme,
moods, compressor and date are byte-identical, whatever the ambient
"today" environment is on each run — the pipeline has no hidden input. -/
theorem C9_render_deterministic (compress : List ℕ → List ℕ) (user : PyUser)
    (d : SimpleDate) (env1 env2 : SimpleDate) :
    render_wallpaper_png compress env1 user (some d) =
      render_wallpaper_png compress env2 user (some d) := rfl

/-- An empty stripped string never parses as an int. -/
theorem py_parse_int_none_of_empty (s : String) (h : (py_strip s).data = []) :
    py_parse_int s = none := by
  unfold py_parse_int
  rw [h]
  rfl

/-- `normalize_theme_columns` accepts an in-range integer. -/
theorem normalize_columns_vint_in (n fb : ℤ) (h7 : 7 ≤ n) (h31 : n ≤ 31) :
    normalize_theme_columns (PyVal.vint n) fb = n := by
  simp only [normalize_theme_columns]
  rw [if_pos ⟨h7, h31⟩]

/-- `normalize_theme_columns` rejects an out-of-range integer. -/
theorem normalize_columns_vint_out (n fb : ℤ) (h : n < 7 ∨ 31 < n) :
    normalize_theme_columns (PyVal.vint n) fb = fb := by
  simp only [normalize_theme_columns]
  rw [if_neg (by omega)]

/-- `normalize_theme_columns` accepts a string parsing to an in-range
integer. -/
theorem normalize_columns_vstr_in (s : String) (n fb : ℤ) (hp : py_parse_int s = some n)
    (h7 : 7 ≤ n) (h31 : n ≤ 31) : normalize_theme_columns (PyVal.vstr s) fb = n := by
  have he : ¬ (py_strip s).data = [] := fun he => by
    rw [py_parse_int_none_of_empty s he] at hp; exact Option.noConfusion hp
  simp only [normalize_theme_columns, if_neg he, hp]
  rw [if_pos ⟨h7, h31⟩]

/-- `normalize_theme_columns` rejects a string parsing to an out-of-range
integer. -/
theorem normalize_columns_vstr_out (s : String) (n fb : ℤ) (hp : py_parse_int s = some n)
    (h : n < 7 ∨ 31 < n) : normalize_theme_columns (PyVal.vstr s) fb = fb := by
  have he : ¬ (py_strip s).data = [] := fun he => by
    rw [py_parse_int_none_of_empty s he] at hp; exact Option.noConfusion hp
  simp only [normalize_theme_columns, if_neg he, hp]
  rw [if_neg (by omega)]

/-- `normalize_theme_columns` rejects an unparsable string. -/
theorem normalize_columns_vstr_none (s : String) (fb : ℤ) (hp : py_parse_int s = none) :
    normalize_theme_columns (PyVal.vstr s) fb = fb := by
  by_cases he : (py_strip s).data = []
  · simp only [normalize_theme_columns, if_pos he]
  · simp only [normalize_theme_columns, if_neg he, hp]

/-- C8 (amended): a `columns` patch value that is an integer in [7, 31],
or a string whose Python `int()` parse yields an integer in [7, 31], is
accepted as that integer; every other present payload value (out-of-range
integer, string parsing out of range, unparsable string, boolean, `None`,
dict) and an absent `columns` field leave the columns at the current
theme's *normalized* value — the stored value when it is itself an
accepted integer or integer-string in [7, 31], else the default 14. -/
theorem C8_theme_patch_columns_amended (cur : PyVal) (payC payG : Option PyVal) :
    ((∀ n : ℤ, payC = some (PyVal.vint n) → 7 ≤ n → n ≤ 31 →
        apply_theme_patch_columns cur payC payG = n) ∧
     (∀ (s : String) (n : ℤ), payC = some (PyVal.vstr s) → py_parse_int s = some n →
        7 ≤ n → n ≤ 31 → apply_theme_patch_columns cur payC payG = n)) ∧
    ((∀ n : ℤ, payC = some (PyVal.vint n) → (n < 7 ∨ 31 < n) →
        apply_theme_patch_columns cur payC payG = normalize_theme_columns cur DEFAULT_COLUMNS) ∧
     (∀ (s : String) (n : ℤ), payC = some (PyVal.vstr s) → py_parse_int s = some n →
        (n < 7 ∨ 31 < n) →
        apply_theme_patch_columns cur payC payG = normalize_theme_columns cur DEFAULT_COLUMNS) ∧
     (∀ s : String, payC = some (PyVal.vstr s) → py_parse_int s = none →
        apply_theme_patch_columns cur payC payG = normalize_theme_columns cur DEFAULT_COLUMNS) ∧
     (∀ b : Bool, payC = some (PyVal.vbool b) →
        apply_theme_patch_columns cur payC payG = normalize_theme_columns cur DEFAULT_COLUMNS) ∧
     (payC = some PyVal.vnone →
        apply_theme_patch_columns cur payC payG = normalize_theme_columns cur DEFAULT_COLUMNS) ∧
     (∀ es : List (String × PyVal), payC = some (PyVal.vdict es) →
        apply_theme_patch_columns cur payC payG = normalize_theme_columns cur DEFAULT_COLUMNS) ∧
     (payC = none → payG = none →
        apply_theme_patch_columns cur payC payG = normalize_theme_columns cur DEFAULT_COLUMNS)) ∧
    ((∀ m : ℤ, cur = PyVal.vint m → 7 ≤ m → m ≤ 31 →
        normalize_theme_columns cur DEFAULT_COLUMNS = m) ∧
     (∀ (s : String) (m : ℤ), cur = PyVal.vstr s → py_parse_int s = some m → 7 ≤ m → m ≤ 31 →
        normalize_theme_columns cur DEFAULT_COLUMNS = m) ∧
     (∀ m : ℤ, cur = PyVal.vint m → (m < 7 ∨ 31 < m) →
        normalize_theme_columns cur DEFAULT_COLUMNS = 14) ∧
     (∀ (s : String) (m : ℤ), cur = PyVal.vstr s → py_parse_int s = some m → (m < 7 ∨ 31 < m) →
        normalize_theme_columns cur DEFAULT_COLUMNS = 14) ∧
     (∀ s : String, cur = PyVal.vstr s → py_parse_int s = none →
        normalize_theme_columns cur DEFAULT_COLUMNS = 14) ∧
     (∀ b : Bool, cur = PyVal.vbool b → normalize_theme_columns cur DEFAULT_COLUMNS = 14) ∧
     (cur = PyVal.vnone → normalize_theme_columns cur DEFAULT_COLUMNS = 14) ∧
     (∀ es : List (String × PyVal), cur = PyVal.vdict es →
        normalize_theme_columns cur DEFAULT_COLUMNS = 14)) := by
  refine ⟨⟨?_, ?_⟩, ⟨?_, ?_, ?_, ?_, ?_, ?_, ?_⟩, ⟨?_, ?_, ?_, ?_, ?_, ?_, ?_, ?_⟩⟩
  · intro n h h7 h31
    subst h
    simp only [apply_theme_patch_columns]
    exact normalize_columns_vint_in n _ h7 h31
  · intro t n h hp h7 h31
    subst h
    simp only [apply_theme_patch_columns]
    exact normalize_columns_vstr_in t n _ hp h7 h31
  · intro n h hout
    subst h
    simp only [apply_theme_patch_columns]
    exact normalize_columns_vint_out n _ hout
  · intro t n h hp hout
    subst h
    simp only [apply_theme_patch_columns]
    exact normalize_columns_vstr_out t n _ hp hout
  · intro t h hp
    subst h
    simp only [apply_theme_patch_columns]
    exact normalize_columns_vstr_none t _ hp
  · intro b h
    subst h
    simp only [apply_theme_patch_columns, normalize_theme_columns]
  · intro h
    subst h
    simp only [apply_theme_patch_columns, normalize_theme_columns]
  · intro es h
    subst h
    simp only [apply_theme_patch_columns, normalize_theme_columns]
  · intro h1 h2
    subst h1; subst h2
    simp only [apply_theme_patch_columns]
  · intro m h h7 h31
    subst h
    exact normalize_columns_vint_in m _ h7 h31
  · intro t m h hp h7 h31
    subst h
    exact normalize_columns_vstr_in t m _ hp h7 h31
  · intro m h hout
    subst h
    exact normalize_columns_vint_out m _ hout
  · intro t m h hp hout
    subst h
    exact normalize_columns_vstr_out t m _ hp hout
  · intro t h hp
    subst h
    exact normalize_columns_vstr_none t _ hp
  · intro b h
    subst h
    simp only [normalize_theme_columns, DEFAULT_COLUMNS]
  · intro h
    subst h
    simp only [normalize_theme_columns, DEFAULT_COLUMNS]
  · intro es h
    subst h
    simp only [normalize_theme_columns, DEFAULT_COLUMNS]

/-- Witness for C8: out-of-range 100 falls back to the normalized current
18; in-range integer 12 and in-range numeric string `"12"` are accepted. -/
theorem C8_theme_patch_columns_amended_witness :
    apply_theme_patch_columns (PyVal.vint 18) (some (PyVal.vint 100)) none =
      normalize_theme_columns (PyVal.vint 18) DEFAULT_COLUMNS ∧
    apply_theme_patch_columns (PyVal.vint 18) (some (PyVal.vint 12)) none = 12 ∧
    apply_theme_patch_columns (PyVal.vint 18) (some (PyVal.vstr "12")) none = 12 ∧
    normalize_theme_columns (PyVal.vint 18) DEFAULT_COLUMNS = 18 :=
  ⟨(C8_theme_patch_columns_amended (PyVal.vint 18) (some (PyVal.vint 100)) none).2.1.1 100 rfl
      (by decide),
    (C8_theme_patch_columns_amended (PyVal.vint 18) (some (PyVal.vint 12)) none).1.1 12 rfl
      (by decide) (by decide),
    (C8_theme_patch_columns_amended (PyVal.vint 18) (some (PyVal.vstr "12")) none).1.2 "12" 12
      rfl (by decide) (by decide) (by decide),
    (C8_theme_patch_columns_amended (PyVal.vint 18) (some (PyVal.vint 100)) none).2.2.1 18 rfl
      (by decide) (by decide)⟩

/-- C8 counterexample: with current columns 18, patching columns with the
*string* `"12"` (a non-integer value) changes the columns to 12 rather
than leaving them unchanged. -/
theorem C8_theme_patch_columns_counterexample :
    apply_theme_patch_columns (PyVal.vint 18) (some (PyVal.vstr "12")) none = 12 ∧
    (12 : ℤ) ≠ 18 := by
  exact ⟨by decide, by decide⟩

theorem digit_val_digit_char {d : ℕ} (h : d < 10) : digit_val (digit_char d) = d := by
  interval_cases d <;> decide

theorem decode_digits_nat_str_aux : ∀ fuel n, n < fuel → decode_digits (nat_str_aux fuel n) = n := by
  intro fuel
  induction fuel with
  | zero => intro n h; omega
  | succ f ih =>
    intro n h
    rw [nat_str_aux]
    by_cases h10 : n < 10
    · rw [if_pos h10]
      simp [decode_digits, List.foldl, digit_val_digit_char h10]
    · rw [if_neg h10]
      have hrec : decode_digits (nat_str_aux f (n / 10)) = n / 10 := ih _ (by omega)
      rw [decode_digits, List.foldl_append]
      rw [decode_digits] at hrec
      simp only [List.foldl, hrec, digit_val_digit_char (show n % 10 < 10 by omega)]
      omega

theorem nat_chars_inj {m n : ℕ} (h : nat_chars m = nat_chars n) : m = n := by
  have hm := decode_digits_nat_str_aux (m + 1) m (by omega)
  have hn := decode_digits_nat_str_aux (n + 1) n (by omega)
  rw [nat_chars, nat_chars] at h
  rw [h] at hm
  omega

theorem nat_str_aux_head : ∀ fuel n, n < fuel →
    ∃ d rest, d < 10 ∧ nat_str_aux fuel n = digit_char d :: rest := by
  intro fuel
  induction fuel with
  | zero => intro n h; omega
  | succ f ih =>
    intro n h
    rw [nat_str_aux]
    by_cases h10 : n < 10
    · exact ⟨n, [], h10, by rw [if_pos h10]⟩
    · obtain ⟨d, rest, hd, heq⟩ := ih (n / 10) (by omega)
      exact ⟨d, rest ++ [digit_char (n % 10)], hd, by rw [if_neg h10, heq]; rfl⟩

/-- Python's `str()` is injective between arbitrary ints and decimal
numerals of naturals — the fact behind the level lookup in the render
loop's `mood_colors` dict. -/
theorem int_str_eq_nat_str_iff (l : ℤ) (k : ℕ) : int_str l = nat_str k ↔ l = (k : ℤ) := by
  constructor
  · intro h
    rw [int_str] at h
    by_cases hneg : l < 0
    · exfalso
      rw [if_pos hneg, nat_str] at h
      injection h with hdata
      obtain ⟨d, rest, hd, hk⟩ := nat_str_aux_head (k + 1) k (by omega)
      have hk' : nat_chars k = digit_char d :: rest := hk
      rw [hk'] at hdata
      injection hdata with hh _
      revert hh
      interval_cases d <;> decide
    · rw [if_neg hneg, nat_str, nat_str] at h
      injection h with hdata
      have := nat_chars_inj hdata
      omega
  · rintro rfl
    rw [int_str, if_neg (by omega), nat_str, nat_str, Int.toNat_natCast]

/-- The render loop's level lookup: looking up `str(l)` in the dict keyed
by `str(1) .. str(5)` finds the level's color exactly for `l` in `1..5`,
else falls back. -/
theorem lookup_mood_colors (l : ℤ) (c1 c2 c3 c4 c5 e : RGB) :
    (List.lookup (int_str l) [(nat_str 1, c1), (nat_str 2, c2), (nat_str 3, c3),
        (nat_str 4, c4), (nat_str 5, c5)]).getD e =
      if l = 1 then c1 else if l = 2 then c2 else if l = 3 then c3 else if l = 4 then c4
        else if l = 5 then c5 else e := by
  have beqt : ∀ (j : ℕ) (m : ℤ), m = (j : ℤ) → (int_str m == nat_str j) = true :=
    fun j m hm => beq_iff_eq.mpr ((int_str_eq_nat_str_iff m j).mpr hm)
  have beqf : ∀ (j : ℕ) (m : ℤ), m ≠ (j : ℤ) → (int_str m == nat_str j) = false :=
    fun j m hm => beq_eq_false_iff_ne.mpr (fun hc => hm ((int_str_eq_nat_str_iff m j).mp hc))
  by_cases h1 : l = 1
  · subst h1; simp [List.lookup_cons, beqt 1 1 (by norm_num)]
  by_cases h2 : l = 2
  · subst h2
    simp [List.lookup_cons, beqf 1 2 (by norm_num), beqt 2 2 (by norm_num)]
  by_cases h3 : l = 3
  · subst h3
    simp [List.lookup_cons, beqf 1 3 (by norm_num), beqf 2 3 (by norm_num),
      beqt 3 3 (by norm_num)]
  by_cases h4 : l = 4
  · subst h4
    simp [List.lookup_cons, beqf 1 4 (by norm_num), beqf 2 4 (by norm_num),
      beqf 3 4 (by norm_num), beqt 4 4 (by norm_num)]
  by_cases h5 : l = 5
  · subst h5
    simp [List.lookup_cons, beqf 1 5 (by norm_num), beqf 2 5 (by norm_num),
      beqf 3 5 (by norm_num), beqf 4 5 (by norm_num), beqt 5 5 (by norm_num)]
  · simp [List.lookup_cons, beqf 1 l (by exact_mod_cast h1), beqf 2 l (by exact_mod_cast h2),
      beqf 3 l (by exact_mod_cast h3), beqf 4 l (by exact_mod_cast h4),
      beqf 5 l (by exact_mod_cast h5), h1, h2, h3, h4, h5, List.lookup]

/-- C4: for moods whose stored entries are dicts carrying an integer
`level` field (and possibly further fields such as a `note`), a day is
classified "mood" exactly when an entry exists for its date key, with the
configured color of the entry's level and the empty color as fallback for
levels outside 1..5; otherwise "future" exactly when the date is strictly
after the target date, with the future color; otherwise "empty" with the
empty color. -/
theorem C4_day_classification (c1 c2 c3 c4 c5 empty_rgb future_rgb : RGB)
    (moods : List (String × PyVal)) (cursor today : SimpleDate) :
    (∀ (l : ℤ) (es : List (String × PyVal)),
      List.lookup (date_key cursor) moods = some (PyVal.vdict es) →
      List.lookup "level" es = some (PyVal.vint l) →
      resolve_day_dot [(nat_str 1, c1), (nat_str 2, c2), (nat_str 3, c3), (nat_str 4, c4),
          (nat_str 5, c5)] empty_rgb future_rgb moods cursor today =
        ("mood", if l = 1 then c1 else if l = 2 then c2 else if l = 3 then c3
          else if l = 4 then c4 else if l = 5 then c5 else empty_rgb)) ∧
    (∀ es : List (String × PyVal),
      List.lookup (date_key cursor) moods = some (PyVal.vdict es) → es ≠ [] →
      (resolve_day_dot [(nat_str 1, c1), (nat_str 2, c2), (nat_str 3, c3), (nat_str 4, c4),
          (nat_str 5, c5)] empty_rgb future_rgb moods cursor today).1 = "mood") ∧
    (List.lookup (date_key cursor) moods = none →
      resolve_day_dot [(nat_str 1, c1), (nat_str 2, c2), (nat_str 3, c3), (nat_str 4, c4),
          (nat_str 5, c5)] empty_rgb future_rgb moods cursor today =
        if date_lt today cursor then ("future", future_rgb) else ("empty", empty_rgb)) := by
  refine ⟨?_, ?_, ?_⟩
  · intro l es h hlev
    have hne : es ≠ [] := by
      rintro rfl
      simp [List.lookup] at hlev
    obtain ⟨e, es', rfl⟩ : ∃ e es', es = e :: es' := by
      cases es with
      | nil => exact absurd rfl hne
      | cons e es' => exact ⟨e, es', rfl⟩
    simp only [resolve_day_dot, h, List.isEmpty_cons]
    rw [hlev]
    simp only [Option.getD_some, py_str]
    rw [lookup_mood_colors l c1 c2 c3 c4 c5 empty_rgb]
    simp
  · intro es h hne
    obtain ⟨e, es', rfl⟩ : ∃ e es', es = e :: es' := by
      cases es with
      | nil => exact absurd rfl hne
      | cons e es' => exact ⟨e, es', rfl⟩
    simp only [resolve_day_dot, h, List.isEmpty_cons]
    simp
  · intro h
    simp only [resolve_day_dot, h]

/-- Witness for C4: a level-5 entry bearing an additional note on
2026-02-14 is classified as a mood dot with the level-5 color; with no
entries the same day is future relative to 2026-02-10 (strictly after the
target date). -/
theorem C4_day_classification_witness :
    resolve_day_dot [(nat_str 1, (239, 68, 68)), (nat_str 2, (249, 115, 22)),
        (nat_str 3, (234, 179, 8)), (nat_str 4, (34, 197, 94)), (nat_str 5, (59, 130, 246))]
        (30, 30, 30) (20, 20, 20)
        [(date_key ⟨2026, 2, 14⟩,
          PyVal.vdict [("level", PyVal.vint 5), ("note", PyVal.vstr "a good day")])]
        ⟨2026, 2, 14⟩ ⟨2026, 2, 20⟩ = ("mood", (59, 130, 246)) ∧
    resolve_day_dot [(nat_str 1, (239, 68, 68)), (nat_str 2, (249, 115, 22)),
        (nat_str 3, (234, 179, 8)), (nat_str 4, (34, 197, 94)), (nat_str 5, (59, 130, 246))]
        (30, 30, 30) (20, 20, 20) [] ⟨2026, 2, 14⟩ ⟨2026, 2, 10⟩ =
      if date_lt ⟨2026, 2, 10⟩ ⟨2026, 2, 14⟩ then ("future", (20, 20, 20))
      else ("empty", (30, 30, 30)) :=
  ⟨((C4_day_classification (239, 68, 68) (249, 115, 22) (234, 179, 8) (34, 197, 94)
      (59, 130, 246) (30, 30, 30) (20, 20, 20)
      [(date_key ⟨2026, 2, 14⟩,
        PyVal.vdict [("level", PyVal.vint 5), ("note", PyVal.vstr "a good day")])]
      ⟨2026, 2, 14⟩ ⟨2026, 2, 20⟩).1 5
      [("level", PyVal.vint 5), ("note", PyVal.vstr "a good day")] rfl rfl).trans (by decide),
    (C4_day_classification (239, 68, 68) (249, 115, 22) (234, 179, 8) (34, 197, 94)
      (59, 130, 246) (30, 30, 30) (20, 20, 20) [] ⟨2026, 2, 14⟩ ⟨2026, 2, 10⟩).2.2 rfl⟩
